import Mathlib

/-!
Verification of the TFLite model-inspector script (src/model_inspector.py).

The script is a single straight-line procedure that prints a report to
standard output.  We embed it shallowly: every `print` call appends one
string to an output list, and Python exceptions are modelled by an
`Except` result, so a run of (a fragment of) the script is a value of type
`Step α` = (lines printed so far, result-or-uncaught-exception).  The
external TFLite runtime (loaded interpreter, tensor binding, invocation)
is modelled as an `Interpreter` record of abstract behaviours; the dict
and list accesses of the Python code are modelled with their Python
semantics (out-of-range list index raises IndexError, missing dict key
raises KeyError).  NumPy float values are modelled by `Rat`; `astype`
changes only the dtype tag (machine rounding of the stored values is not
modelled — no claim depends on float representation).
-/

namespace ModelInspector

/-- Numeric representations distinguished by the script (`np.float32`,
`np.uint8`), plus the other dtypes a TFLite tensor can carry, collapsed
into representative constructors. -/
inductive DType where
  | float32 : DType
  | float64 : DType
  | uint8 : DType
  | int8 : DType
deriving DecidableEq, Repr

/-- Rendering of a dtype in the report (cosmetic; the real script prints
the numpy class object). -/
def showDType : DType → String
  | DType.float32 => "numpy.float32"
  | DType.float64 => "numpy.float64"
  | DType.uint8 => "numpy.uint8"
  | DType.int8 => "numpy.int8"

/-- The `quantization_parameters` sub-dict of a tensor-detail dict.  The
script only interpolates the `scales` and `zero_points` entries into
f-strings, so we keep their rendered forms. -/
structure QuantizationParameters where
  scales : String
  zero_points : String
deriving DecidableEq, Repr

/-- One entry of `interpreter.get_input_details()` /
`get_output_details()`: the fields of the Python dict that the script
reads.  `quantization` and `quantization_parameters` are `Option`s so
that the dict-access semantics (`.get` with default vs `[]` raising
KeyError) can be modelled. -/
structure TensorDetail where
  name : String
  shape : List Nat
  dtype : DType
  quantization : Option String
  quantization_parameters : Option QuantizationParameters
  index : Nat
deriving DecidableEq, Repr

/-- A NumPy array: shape, dtype tag, and flattened data. -/
structure NDArray where
  shape : List Nat
  dtype : DType
  data : List Rat
deriving DecidableEq, Repr

/-- The loaded TFLite interpreter: its declared tensor details and the
(abstract, possibly failing) behaviours of `set_tensor`, `invoke` and
`get_tensor`. -/
structure Interpreter where
  input_details : List TensorDetail
  output_details : List TensorDetail
  set_tensor : Nat → NDArray → Except String Unit
  invoke : Except String Unit
  get_tensor : Nat → Except String NDArray

/-- Python exceptions that the embedded fragments can raise. -/
inductive PyError where
  | indexError : PyError
  | keyError : String → PyError
  | runtimeError : String → PyError
deriving DecidableEq, Repr

/-- The `str(e)` of an exception, as interpolated into the failure
message. -/
def pyErrMsg : PyError → String
  | PyError.indexError => "list index out of range"
  | PyError.keyError k => "KeyError: " ++ k
  | PyError.runtimeError m => m

/-- A run of a script fragment: the lines printed (in order) and either a
normal result or the uncaught exception that aborted the fragment. -/
structure Step (α : Type) where
  out : List String
  res : Except PyError α
deriving Repr

/-- Sequencing: the second fragment runs (and prints) only when the first
did not raise. -/
def Step.bind {α β : Type} : Step α → (α → Step β) → Step β
  | ⟨o, Except.ok v⟩, f => ⟨o ++ (f v).out, (f v).res⟩
  | ⟨o, Except.error e⟩, _ => ⟨o, Except.error e⟩

/-- Python `try`/`except Exception`: on an exception the handler runs
after the partial output of the body. -/
def Step.tryCatch {α : Type} : Step α → (PyError → Step α) → Step α
  | ⟨o, Except.ok v⟩, _ => ⟨o, Except.ok v⟩
  | ⟨o, Except.error e⟩, h => ⟨o ++ (h e).out, (h e).res⟩

/-- One `print(...)` call: emits its string as one line. -/
def pr (s : String) : Step Unit := ⟨[s], Except.ok ()⟩

/-- A sequence of consecutive `print(...)` calls of fixed strings. -/
def prList (ls : List String) : Step Unit := ⟨ls, Except.ok ()⟩

/-- Python list indexing `l[i]`: raises IndexError when out of range. -/
def pyIndex {α : Type} (l : List α) (i : Nat) : Step α :=
  match l.get? i with
  | some x => ⟨[], Except.ok x⟩
  | none => ⟨[], Except.error PyError.indexError⟩

/-- Python dict indexing `d[key]` on a field we model as optional: raises
KeyError when the key is absent. -/
def pyDictGet {α : Type} (v : Option α) (key : String) : Step α :=
  match v with
  | some x => ⟨[], Except.ok x⟩
  | none => ⟨[], Except.error (PyError.keyError key)⟩

/-- A call into the TFLite runtime: its failures surface as Python
exceptions carrying the runtime message. -/
def liftExc {α : Type} : Except String α → Step α
  | Except.ok v => ⟨[], Except.ok v⟩
  | Except.error m => ⟨[], Except.error (PyError.runtimeError m)⟩

/-- The `"=" * 60` separator. -/
def sep : String := String.mk (List.replicate 60 (Char.ofNat 61))

/-- Rendering of a shape list (cosmetic stand-in for numpy array
printing). -/
def showShape (s : List Nat) : String :=
  "[" ++ String.intercalate " " (s.map toString) ++ "]"

/-- Rendering of `output.shape` (a Python tuple). -/
def showTuple (s : List Nat) : String :=
  "(" ++ String.intercalate ", " (s.map toString) ++ ")"

/-- Rendering of the `quantization` dict entry:
`inp.get(quantization-key, the-string-None)`. -/
def showQuantField : Option String → String
  | some s => s
  | none => "None"

/-- Number of elements of an array of the given shape. -/
def shapeProd (s : List Nat) : Nat := s.foldl (fun a b => a * b) 1

/-- Model of `np.random.rand(*shape)`: a float64 array of the given shape
whose flattened entries are drawn from the random source `rng`. -/
def np_random_rand (shape : List Nat) (rng : Nat → Rat) : NDArray :=
  ⟨shape, DType.float64, (List.range (shapeProd shape)).map rng⟩

/-- Model of `arr.astype(d)`: retags the dtype (value rounding to the
machine type is not modelled). -/
def NDArray.astype (a : NDArray) (d : DType) : NDArray := ⟨a.shape, d, a.data⟩

/-- Line 77: `test_input = np.random.rand(*input_shape).astype(np.float32)`. -/
def makeTestInput (input_shape : List Nat) (rng : Nat → Rat) : NDArray :=
  (np_random_rand input_shape rng).astype DType.float32

/-- Model of `arr.min()`: raises on an empty array, as NumPy does. -/
def npMin (a : NDArray) : Except String Rat :=
  match a.data with
  | [] => Except.error "zero-size array to reduction operation minimum which has no identity"
  | x :: xs => Except.ok (xs.foldl min x)

/-- Model of `arr.max()`: raises on an empty array, as NumPy does. -/
def npMax (a : NDArray) : Except String Rat :=
  match a.data with
  | [] => Except.error "zero-size array to reduction operation maximum which has no identity"
  | x :: xs => Except.ok (xs.foldl max x)

/-- Left-pad of the fractional part for 4-decimal formatting. -/
def pad4 (k : Nat) : String :=
  if k < 10 then "000" ++ toString k
  else if k < 100 then "00" ++ toString k
  else if k < 1000 then "0" ++ toString k
  else toString k

/-- `:.4f` formatting (by flooring at 4 decimals; the exact rounding mode
is cosmetic and no claim depends on it). -/
def format4 (q : Rat) : String :=
  let n : Int := Rat.floor (q * 10000)
  if n < 0 then
    "-" ++ toString ((-n).toNat / 10000) ++ "." ++ pad4 ((-n).toNat % 10000)
  else
    toString (n.toNat / 10000) ++ "." ++ pad4 (n.toNat % 10000)

/-- Lines 26–36: the per-input-tensor listing.  Note that the `Scale` /
`Zero Point` lines use Python `[]` access on `quantization_parameters`,
which raises KeyError when the key is absent, while the `Quantization`
line uses `.get` with the default string `None`. -/
def inputTensorBlock (i : Nat) (inp : TensorDetail) : Step Unit :=
  Step.bind (pr ("  [" ++ toString i ++ "] Name: " ++ inp.name)) (fun _ =>
  Step.bind (pr ("      Shape: " ++ showShape inp.shape)) (fun _ =>
  Step.bind (pr ("      Type: " ++ showDType inp.dtype)) (fun _ =>
  Step.bind (pr ("      Quantization: " ++ showQuantField inp.quantization)) (fun _ =>
  if inp.dtype = DType.uint8 then
    Step.bind (pr "      ⚠️  QUANTIZED MODEL - Use scale/zero_point") (fun _ =>
    Step.bind (pyDictGet inp.quantization_parameters "quantization_parameters") (fun qp =>
    Step.bind (pr ("      Scale: " ++ qp.scales)) (fun _ =>
    pr ("      Zero Point: " ++ qp.zero_points))))
  else ⟨[], Except.ok ()⟩))))

/-- Lines 39–42: the per-output-tensor listing. -/
def outputTensorBlock (i : Nat) (out : TensorDetail) : Step Unit :=
  Step.bind (pr ("  [" ++ toString i ++ "] Name: " ++ out.name)) (fun _ =>
  Step.bind (pr ("      Shape: " ++ showShape out.shape)) (fun _ =>
  pr ("      Type: " ++ showDType out.dtype)))

/-- `for i, d in enumerate(details)` over a per-tensor block. -/
def tensorLoop (block : Nat → TensorDetail → Step Unit) : Nat → List TensorDetail → Step Unit
  | _, [] => ⟨[], Except.ok ()⟩
  | i, d :: ds => Step.bind (block i d) (fun _ => tensorLoop block (i + 1) ds)

/-- The input-listing loop of lines 26–36. -/
def inputLoop : Nat → List TensorDetail → Step Unit := tensorLoop inputTensorBlock

/-- The output-listing loop of lines 39–42. -/
def outputLoop : Nat → List TensorDetail → Step Unit := tensorLoop outputTensorBlock

/-- Lines 51–63: the normalization-recipe branch, keyed on the first
input dtype only. -/
def recipeLines (input_dtype : DType) : List String :=
  if input_dtype = DType.float32 then
    ["✅ Float32 model",
     "   Normalize pixels to [0.0, 1.0]:",
     "   normalized = pixel_value / 255.0",
     "\n   OR if trained with ImageNet preprocessing:",
     "   R = (pixel - 123.675) / 58.395",
     "   G = (pixel - 116.28) / 57.12",
     "   B = (pixel - 103.53) / 57.375"]
  else if input_dtype = DType.uint8 then
    ["⚠️  Quantized Uint8 model",
     "   Use pixels directly (0-255)",
     "   No normalization needed!"]
  else []

/-- Lines 65–69: the batch/height/width/channels decomposition of the
first input shape.  Each f-string evaluates the index (possibly raising
IndexError) before printing. -/
def shapeDecomp (input_shape : List Nat) : Step Unit :=
  Step.bind (pr ("\n   Expected input shape: " ++ showShape input_shape)) (fun _ =>
  Step.bind (pyIndex input_shape 0) (fun b =>
  Step.bind (pr ("   Batch: " ++ toString b)) (fun _ =>
  Step.bind (pyIndex input_shape 1) (fun hgt =>
  Step.bind (pr ("   Height: " ++ toString hgt)) (fun _ =>
  Step.bind (pyIndex input_shape 2) (fun w =>
  Step.bind (pr ("   Width: " ++ toString w)) (fun _ =>
  Step.bind (pyIndex input_shape 3) (fun c =>
  pr ("   Channels: " ++ toString c)))))))))

/-- Lines 89–93: the YOLO detection-layout hint, printed exactly when the
output is rank-3 with last dimension 85. -/
def hintBlock (shape : List Nat) : List String :=
  if shape.length = 3 ∧ shape.getD 2 0 = 85 then
    ["\n   Format: YOLOv5/v8 detection output",
     "   Detections: " ++ toString (shape.getD 1 0),
     "   Values per detection: " ++ toString (shape.getD 2 0),
     "   Layout: [x, y, w, h, objectness, class0, class1, ..., class79]"]
  else []

/-- Lines 80–93: the body of the `try` block — bind the dummy input, run
inference, read the first output, print its statistics and the layout
hint. -/
def inferenceAttempt (interp : Interpreter) (test_input : NDArray) : Step Unit :=
  Step.bind (pyIndex interp.input_details 0) (fun inp0 =>
  Step.bind (liftExc (interp.set_tensor inp0.index test_input)) (fun _ =>
  Step.bind (liftExc interp.invoke) (fun _ =>
  Step.bind (pyIndex interp.output_details 0) (fun out0 =>
  Step.bind (liftExc (interp.get_tensor out0.index)) (fun output =>
  Step.bind (pr "✅ Inference successful!") (fun _ =>
  Step.bind (pr ("   Output shape: " ++ showTuple output.shape)) (fun _ =>
  Step.bind (liftExc (npMin output)) (fun mn =>
  Step.bind (liftExc (npMax output)) (fun mx =>
  Step.bind (pr ("   Output range: [" ++ format4 mn ++ ", " ++ format4 mx ++ "]")) (fun _ =>
  prList (hintBlock output.shape)))))))))))

/-- Line 96: the single `except` handler — one failure line carrying the
description of the caught error. -/
def failHandler (e : PyError) : Step Unit :=
  pr ("❌ Inference failed: " ++ pyErrMsg e)

/-- Lines 65–98 of `inspect_tflite_model`: shape decomposition, the
TESTING INFERENCE header, the guarded inference attempt, and the final
separator. -/
def inspectTail (interp : Interpreter) (inp0 : TensorDetail) (rng : Nat → Rat) : Step Unit :=
  Step.bind (shapeDecomp inp0.shape) (fun _ =>
  Step.bind (pr ("\n" ++ sep)) (fun _ =>
  Step.bind (pr "TESTING INFERENCE:") (fun _ =>
  Step.bind (pr sep) (fun _ =>
  Step.bind (Step.tryCatch (inferenceAttempt interp (makeTestInput inp0.shape rng)) failHandler) (fun _ =>
  pr ("\n" ++ sep))))))

/-- Lines 14–98: the whole of `inspect_tflite_model`, given a loaded
interpreter and the random source feeding `np.random.rand`. -/
def inspect_tflite_model (interp : Interpreter) (rng : Nat → Rat) : Step Unit :=
  Step.bind (pr sep) (fun _ =>
  Step.bind (pr "MODEL INSPECTION REPORT") (fun _ =>
  Step.bind (pr sep) (fun _ =>
  Step.bind (pr "\n📥 INPUT TENSOR:") (fun _ =>
  Step.bind (inputLoop 0 interp.input_details) (fun _ =>
  Step.bind (pr "\n📤 OUTPUT TENSOR:") (fun _ =>
  Step.bind (outputLoop 0 interp.output_details) (fun _ =>
  Step.bind (pr ("\n" ++ sep)) (fun _ =>
  Step.bind (pr "EXPECTED INPUT FORMAT:") (fun _ =>
  Step.bind (pr sep) (fun _ =>
  Step.bind (pyIndex interp.input_details 0) (fun inp0 =>
  Step.bind (prList (recipeLines inp0.dtype)) (fun _ =>
  inspectTail interp inp0 rng))))))))))))

/-- The three `print` calls of the missing-argument branch
(lines 104–106). -/
def usageLines : List String :=
  ["Usage: python model_inspector.py <path_to_model.tflite>",
   "\nExample:",
   "  python model_inspector.py app/src/main/assets/model.tflite"]

/-- Outcome of one process invocation: lines printed, the argument of an
explicit `sys.exit` if one ran, the uncaught exception if the run aborted,
and whether `inspect_tflite_model` was entered. -/
structure MainResult where
  out : List String
  exit_code : Option Nat
  fatal : Option PyError
  inspect_called : Bool
deriving Repr

/-- The error of a finished run, if any. -/
def resErr : Except PyError Unit → Option PyError
  | Except.ok _ => none
  | Except.error e => some e

/-- Lines 100–110: the `__main__` block.  `argv` includes the program
name; `load` is the (assumed successful) interpreter construction for the
given path. -/
def main_entry (argv : List String) (load : String → Interpreter) (rng : Nat → Rat) : MainResult :=
  if argv.length < 2 then
    { out := usageLines, exit_code := some 1, fatal := none, inspect_called := false }
  else
    let r := inspect_tflite_model (load (argv.getD 1 "")) rng
    { out := r.out, exit_code := none, fatal := resErr r.res, inspect_called := true }

/-- Number of text lines the given sequence of `print` calls produces
(each print appends a newline; embedded newlines add further lines). -/
def printedLineCount (msgs : List String) : Nat :=
  msgs.foldl (fun acc s => acc + 1 + (s.data.filter (fun c => c = Char.ofNat 10)).length) 0

/-- The marker beginning the single recovered-failure report line. -/
def failMarker : String := "❌ Inference failed: "

/-- Whether a printed line is a failure-report line. -/
def startsFail (l : String) : Bool := failMarker.data.isPrefixOf l.data

/-- A line drawn from a known set of line templates: some template of the
set is a prefix of it. -/
def PrefixedBy (lits : List String) (l : String) : Prop :=
  ∃ p, p ∈ lits ∧ p.data <+: l.data

/- ### Generic lemmas about `Step` runs -/

theorem bind_mk_ok {α β : Type} (o : List String) (v : α) (f : α → Step β) :
    Step.bind ⟨o, Except.ok v⟩ f = ⟨o ++ (f v).out, (f v).res⟩ := rfl

theorem bind_mk_error {α β : Type} (o : List String) (e : PyError) (f : α → Step β) :
    Step.bind ⟨o, Except.error e⟩ f = ⟨o, Except.error e⟩ := rfl

theorem bind_ok {α β : Type} {a : Step α} {v : α} (h : a.res = Except.ok v) (f : α → Step β) :
    Step.bind a f = ⟨a.out ++ (f v).out, (f v).res⟩ := by
  cases a with
  | mk o r =>
    cases r with
    | ok w => simp only [Step.res] at h; cases h; rfl
    | error e => simp [Step.res] at h

theorem bind_error {α β : Type} {a : Step α} {e : PyError} (h : a.res = Except.error e)
    (f : α → Step β) : Step.bind a f = ⟨a.out, Except.error e⟩ := by
  cases a with
  | mk o r =>
    cases r with
    | ok w => simp [Step.res] at h
    | error e2 => simp only [Step.res] at h; cases h; rfl

theorem tryCatch_mk_ok {α : Type} (o : List String) (v : α) (h : PyError → Step α) :
    Step.tryCatch ⟨o, Except.ok v⟩ h = ⟨o, Except.ok v⟩ := rfl

theorem tryCatch_mk_error {α : Type} (o : List String) (e : PyError) (h : PyError → Step α) :
    Step.tryCatch ⟨o, Except.error e⟩ h = ⟨o ++ (h e).out, (h e).res⟩ := rfl

theorem tryCatch_res_ok {a : Step Unit} {hnd : PyError → Step Unit}
    (h : ∀ e, (hnd e).res = Except.ok ()) : (Step.tryCatch a hnd).res = Except.ok () := by
  cases a with
  | mk o r =>
    cases r with
    | ok v => cases v; rfl
    | error e => simpa [Step.tryCatch] using h e

theorem mem_bind_out {α β : Type} {a : Step α} {f : α → Step β} {l : String}
    (h : l ∈ (Step.bind a f).out) : l ∈ a.out ∨ ∃ v, l ∈ (f v).out := by
  cases a with
  | mk o r =>
    cases r with
    | ok v =>
      simp only [Step.bind, Step.out, List.mem_append] at h
      rcases h with h | h
      · exact Or.inl h
      · exact Or.inr ⟨v, h⟩
    | error e => exact Or.inl h

theorem mem_tryCatch_out {α : Type} {a : Step α} {hnd : PyError → Step α} {l : String}
    (h : l ∈ (Step.tryCatch a hnd).out) : l ∈ a.out ∨ ∃ e, l ∈ (hnd e).out := by
  cases a with
  | mk o r =>
    cases r with
    | ok v => exact Or.inl h
    | error e =>
      simp only [Step.tryCatch, Step.out, List.mem_append] at h
      rcases h with h | h
      · exact Or.inl h
      · exact Or.inr ⟨e, h⟩

/- ### Prefix bookkeeping -/

theorem prefix_of_isPrefixOf {l₁ l₂ : List Char} (h : l₁.isPrefixOf l₂ = true) : l₁ <+: l₂ :=
  List.isPrefixOf_iff_prefix.mp h

theorem isPrefixOf_of_prefix {l₁ l₂ : List Char} (h : l₁ <+: l₂) : l₁.isPrefixOf l₂ = true :=
  List.isPrefixOf_iff_prefix.mpr h

theorem prefix_comparable {l₁ l₂ l₃ : List Char} (h1 : l₁ <+: l₃) (h2 : l₂ <+: l₃) :
    l₁ <+: l₂ ∨ l₂ <+: l₁ :=
  List.prefix_or_prefix_of_prefix h1 h2

theorem data_prefix_left (p x : String) : p.data <+: (p ++ x).data := by
  rw [String.data_append]
  exact List.prefix_append _ _

theorem data_prefix_extend {p l : String} (h : p.data <+: l.data) (x : String) :
    p.data <+: (l ++ x).data := by
  rw [String.data_append]
  exact h.trans (List.prefix_append _ _)

theorem prefixedBy_self {lits : List String} {l : String} (h : l ∈ lits) : PrefixedBy lits l :=
  ⟨l, h, List.prefix_refl _⟩

theorem prefixedBy_append {lits : List String} {p : String} (h : p ∈ lits) (x : String) :
    PrefixedBy lits (p ++ x) :=
  ⟨p, h, data_prefix_left p x⟩

theorem prefixedBy_mono {lits lits2 : List String} {l : String} (h : PrefixedBy lits l)
    (hsub : ∀ p ∈ lits, p ∈ lits2) : PrefixedBy lits2 l := by
  obtain ⟨p, hp, hpre⟩ := h
  exact ⟨p, hsub p hp, hpre⟩

theorem not_mem_of_prefixedBy {t : String} {out lits : List String}
    (hall : ∀ l ∈ out, PrefixedBy lits l)
    (ht : ∀ p ∈ lits, p.data.isPrefixOf t.data = false) : t ∉ out := by
  intro hm
  obtain ⟨p, hp, hpre⟩ := hall t hm
  have h1 := isPrefixOf_of_prefix hpre
  rw [ht p hp] at h1
  exact Bool.false_ne_true h1

theorem startsFail_false_of_prefixedBy {l : String} {lits : List String}
    (h : PrefixedBy lits l)
    (hl : ∀ p ∈ lits, failMarker.data.isPrefixOf p.data = false ∧
      p.data.isPrefixOf failMarker.data = false) : startsFail l = false := by
  obtain ⟨p, hp, hpre⟩ := h
  cases h2 : startsFail l with
  | false => rfl
  | true =>
  exfalso
  have hf : failMarker.data <+: l.data := prefix_of_isPrefixOf (by simpa [startsFail] using h2)
  rcases prefix_comparable hf hpre with hc | hc
  · have := isPrefixOf_of_prefix hc
    rw [(hl p hp).1] at this
    exact Bool.false_ne_true this
  · have := isPrefixOf_of_prefix hc
    rw [(hl p hp).2] at this
    exact Bool.false_ne_true this

theorem countP_startsFail_zero {out lits : List String}
    (hall : ∀ l ∈ out, PrefixedBy lits l)
    (hl : ∀ p ∈ lits, failMarker.data.isPrefixOf p.data = false ∧
      p.data.isPrefixOf failMarker.data = false) :
    out.countP startsFail = 0 := by
  rw [List.countP_eq_zero]
  intro l hm
  simp [startsFail_false_of_prefixedBy (hall l hm) hl]

theorem prefixedBy_append2 {lits : List String} {p : String} (h : p ∈ lits) (x y : String) :
    PrefixedBy lits (p ++ x ++ y) :=
  ⟨p, h, data_prefix_extend (data_prefix_left p x) y⟩

theorem prefixedBy_append3 {lits : List String} {p : String} (h : p ∈ lits) (x y z : String) :
    PrefixedBy lits (p ++ x ++ y ++ z) :=
  ⟨p, h, data_prefix_extend (data_prefix_extend (data_prefix_left p x) y) z⟩

theorem prefixedBy_append4 {lits : List String} {p : String} (h : p ∈ lits) (x y z w : String) :
    PrefixedBy lits (p ++ x ++ y ++ z ++ w) :=
  ⟨p, h, data_prefix_extend (data_prefix_extend (data_prefix_extend (data_prefix_left p x) y) z) w⟩

/- ### Output-shape lemmas for the single steps -/

@[simp] theorem pyIndex_out {α : Type} (l : List α) (i : Nat) : (pyIndex l i).out = [] := by
  unfold pyIndex
  cases l.get? i <;> rfl

@[simp] theorem pyDictGet_out {α : Type} (v : Option α) (k : String) :
    (pyDictGet v k).out = [] := by
  cases v <;> rfl

@[simp] theorem liftExc_out {α : Type} (x : Except String α) : (liftExc x).out = [] := by
  cases x <;> rfl

/- ### The per-tensor listing blocks -/

/-- The fixed templates every line of the input listing starts with. -/
def inputLits : List String :=
  ["  [", "      Shape: ", "      Type: ", "      Quantization: ",
   "      ⚠️  QUANTIZED MODEL - Use scale/zero_point", "      Scale: ", "      Zero Point: "]

/-- The fixed templates every line of the output listing starts with. -/
def outLits : List String := ["  [", "      Shape: ", "      Type: "]

theorem inputTensorBlock_uint8_some (i : Nat) (inp : TensorDetail) (qp : QuantizationParameters)
    (hd : inp.dtype = DType.uint8) (hq : inp.quantization_parameters = some qp) :
    inputTensorBlock i inp =
      ⟨["  [" ++ toString i ++ "] Name: " ++ inp.name,
        "      Shape: " ++ showShape inp.shape,
        "      Type: " ++ showDType inp.dtype,
        "      Quantization: " ++ showQuantField inp.quantization,
        "      ⚠️  QUANTIZED MODEL - Use scale/zero_point",
        "      Scale: " ++ qp.scales,
        "      Zero Point: " ++ qp.zero_points], Except.ok ()⟩ := by
  simp [inputTensorBlock, hd, hq, Step.bind, pr, pyDictGet]

theorem inputTensorBlock_uint8_none (i : Nat) (inp : TensorDetail)
    (hd : inp.dtype = DType.uint8) (hq : inp.quantization_parameters = none) :
    inputTensorBlock i inp =
      ⟨["  [" ++ toString i ++ "] Name: " ++ inp.name,
        "      Shape: " ++ showShape inp.shape,
        "      Type: " ++ showDType inp.dtype,
        "      Quantization: " ++ showQuantField inp.quantization,
        "      ⚠️  QUANTIZED MODEL - Use scale/zero_point"],
       Except.error (PyError.keyError "quantization_parameters")⟩ := by
  simp [inputTensorBlock, hd, hq, Step.bind, pr, pyDictGet]

theorem inputTensorBlock_other (i : Nat) (inp : TensorDetail) (hd : inp.dtype ≠ DType.uint8) :
    inputTensorBlock i inp =
      ⟨["  [" ++ toString i ++ "] Name: " ++ inp.name,
        "      Shape: " ++ showShape inp.shape,
        "      Type: " ++ showDType inp.dtype,
        "      Quantization: " ++ showQuantField inp.quantization], Except.ok ()⟩ := by
  simp [inputTensorBlock, hd, Step.bind, pr]

theorem outputTensorBlock_eq (i : Nat) (out : TensorDetail) :
    outputTensorBlock i out =
      ⟨["  [" ++ toString i ++ "] Name: " ++ out.name,
        "      Shape: " ++ showShape out.shape,
        "      Type: " ++ showDType out.dtype], Except.ok ()⟩ := rfl

theorem inputTensorBlock_prefixed (i : Nat) (inp : TensorDetail) :
    ∀ l ∈ (inputTensorBlock i inp).out, PrefixedBy inputLits l := by
  intro l hl
  by_cases hd : inp.dtype = DType.uint8
  · cases hq : inp.quantization_parameters with
    | some qp =>
      rw [inputTensorBlock_uint8_some i inp qp hd hq] at hl
      simp only [Step.out, List.mem_cons, List.not_mem_nil, or_false] at hl
      rcases hl with rfl | rfl | rfl | rfl | rfl | rfl | rfl
      · exact prefixedBy_append3 (by decide) _ _ _
      · exact prefixedBy_append (by decide) _
      · exact prefixedBy_append (by decide) _
      · exact prefixedBy_append (by decide) _
      · exact prefixedBy_self (by decide)
      · exact prefixedBy_append (by decide) _
      · exact prefixedBy_append (by decide) _
    | none =>
      rw [inputTensorBlock_uint8_none i inp hd hq] at hl
      simp only [Step.out, List.mem_cons, List.not_mem_nil, or_false] at hl
      rcases hl with rfl | rfl | rfl | rfl | rfl
      · exact prefixedBy_append3 (by decide) _ _ _
      · exact prefixedBy_append (by decide) _
      · exact prefixedBy_append (by decide) _
      · exact prefixedBy_append (by decide) _
      · exact prefixedBy_self (by decide)
  · rw [inputTensorBlock_other i inp hd] at hl
    simp only [Step.out, List.mem_cons, List.not_mem_nil, or_false] at hl
    rcases hl with rfl | rfl | rfl | rfl
    · exact prefixedBy_append3 (by decide) _ _ _
    · exact prefixedBy_append (by decide) _
    · exact prefixedBy_append (by decide) _
    · exact prefixedBy_append (by decide) _

theorem outputTensorBlock_prefixed (i : Nat) (out : TensorDetail) :
    ∀ l ∈ (outputTensorBlock i out).out, PrefixedBy outLits l := by
  intro l hl
  rw [outputTensorBlock_eq i out] at hl
  simp only [Step.out, List.mem_cons, List.not_mem_nil, or_false] at hl
  rcases hl with rfl | rfl | rfl
  · exact prefixedBy_append3 (by decide) _ _ _
  · exact prefixedBy_append (by decide) _
  · exact prefixedBy_append (by decide) _

theorem tensorLoop_prefixed {lits : List String} (block : Nat → TensorDetail → Step Unit)
    (hblock : ∀ i d l, l ∈ (block i d).out → PrefixedBy lits l) :
    ∀ (i : Nat) (ds : List TensorDetail) (l : String),
      l ∈ (tensorLoop block i ds).out → PrefixedBy lits l := by
  intro i ds
  induction ds generalizing i with
  | nil => intro l hl; simp [tensorLoop, Step.out] at hl
  | cons d ds ih =>
    intro l hl
    simp only [tensorLoop] at hl
    rcases mem_bind_out hl with h | ⟨v, h⟩
    · exact hblock i d l h
    · exact ih (i + 1) l h

theorem inputLoop_prefixed (i : Nat) (ds : List TensorDetail) :
    ∀ l ∈ (inputLoop i ds).out, PrefixedBy inputLits l :=
  tensorLoop_prefixed inputTensorBlock inputTensorBlock_prefixed i ds

theorem outputLoop_prefixed (i : Nat) (ds : List TensorDetail) :
    ∀ l ∈ (outputLoop i ds).out, PrefixedBy outLits l :=
  tensorLoop_prefixed outputTensorBlock outputTensorBlock_prefixed i ds

theorem outputLoop_ok (i : Nat) (ds : List TensorDetail) :
    ∃ L, outputLoop i ds = ⟨L, Except.ok ()⟩ := by
  induction ds generalizing i with
  | nil => exact ⟨[], rfl⟩
  | cons d ds ih =>
    obtain ⟨L, hL⟩ := ih (i + 1)
    have hstep : outputLoop i (d :: ds) = ⟨(outputTensorBlock i d).out ++ L, Except.ok ()⟩ := by
      simp only [outputLoop, tensorLoop] at hL ⊢
      rw [outputTensorBlock_eq, bind_mk_ok, hL]
    exact ⟨_, hstep⟩

theorem inputLoop_ok (i : Nat) (ds : List TensorDetail)
    (h : ∀ d ∈ ds, d.dtype = DType.uint8 → d.quantization_parameters ≠ none) :
    ∃ L, inputLoop i ds = ⟨L, Except.ok ()⟩ := by
  induction ds generalizing i with
  | nil => exact ⟨[], rfl⟩
  | cons d ds ih =>
    obtain ⟨L, hL⟩ := ih (i + 1) (fun d2 h2 => h d2 (List.mem_cons_of_mem d h2))
    have hblock : ∃ B, inputTensorBlock i d = ⟨B, Except.ok ()⟩ := by
      by_cases hd : d.dtype = DType.uint8
      · cases hq : d.quantization_parameters with
        | some qp => exact ⟨_, inputTensorBlock_uint8_some i d qp hd hq⟩
        | none => exact absurd hq (h d (List.mem_cons_self d ds) hd)
      · exact ⟨_, inputTensorBlock_other i d hd⟩
    obtain ⟨B, hB⟩ := hblock
    have hstep : inputLoop i (d :: ds) = ⟨B ++ L, Except.ok ()⟩ := by
      simp only [inputLoop, tensorLoop] at hL ⊢
      rw [hB, bind_mk_ok, hL]
    exact ⟨_, hstep⟩

/- ### Shape decomposition -/

theorem shapeDecomp_cons (a b c d : Nat) (t : List Nat) :
    shapeDecomp (a :: b :: c :: d :: t) =
      ⟨["\n   Expected input shape: " ++ showShape (a :: b :: c :: d :: t),
        "   Batch: " ++ toString a,
        "   Height: " ++ toString b,
        "   Width: " ++ toString c,
        "   Channels: " ++ toString d], Except.ok ()⟩ := rfl

/-- The fixed templates every line of the shape decomposition starts
with. -/
def decompLits : List String :=
  ["\n   Expected input shape: ", "   Batch: ", "   Height: ", "   Width: ", "   Channels: "]

theorem shapeDecomp_prefixed (s : List Nat) :
    ∀ l ∈ (shapeDecomp s).out, PrefixedBy decompLits l := by
  intro l hl
  unfold shapeDecomp at hl
  rcases mem_bind_out hl with h | ⟨_, h⟩
  · simp only [pr, Step.out, List.mem_singleton] at h
    exact h ▸ prefixedBy_append (by decide) _
  rcases mem_bind_out h with h | ⟨b, h⟩
  · simp [pyIndex_out] at h
  rcases mem_bind_out h with h | ⟨_, h⟩
  · simp only [pr, Step.out, List.mem_singleton] at h
    exact h ▸ prefixedBy_append (by decide) _
  rcases mem_bind_out h with h | ⟨hgt, h⟩
  · simp [pyIndex_out] at h
  rcases mem_bind_out h with h | ⟨_, h⟩
  · simp only [pr, Step.out, List.mem_singleton] at h
    exact h ▸ prefixedBy_append (by decide) _
  rcases mem_bind_out h with h | ⟨w, h⟩
  · simp [pyIndex_out] at h
  rcases mem_bind_out h with h | ⟨_, h⟩
  · simp only [pr, Step.out, List.mem_singleton] at h
    exact h ▸ prefixedBy_append (by decide) _
  rcases mem_bind_out h with h | ⟨c, h⟩
  · simp [pyIndex_out] at h
  simp only [pr, Step.out, List.mem_singleton] at h
  exact h ▸ prefixedBy_append (by decide) _

/- ### The inference attempt -/

/-- The fixed templates every line of the `try` body starts with. -/
def attemptLits : List String :=
  ["✅ Inference successful!", "   Output shape: ", "   Output range: [",
   "\n   Format: YOLOv5/v8 detection output", "   Detections: ", "   Values per detection: ",
   "   Layout: [x, y, w, h, objectness, class0, class1, ..., class79]"]

theorem hintBlock_prefixed (s : List Nat) : ∀ l ∈ hintBlock s, PrefixedBy attemptLits l := by
  intro l hl
  unfold hintBlock at hl
  by_cases hc : s.length = 3 ∧ s.getD 2 0 = 85
  · rw [if_pos hc] at hl
    simp only [List.mem_cons, List.not_mem_nil, or_false] at hl
    rcases hl with rfl | rfl | rfl | rfl
    · exact prefixedBy_self (by decide)
    · exact prefixedBy_append (by decide) _
    · exact prefixedBy_append (by decide) _
    · exact prefixedBy_self (by decide)
  · rw [if_neg hc] at hl
    simp at hl

theorem inferenceAttempt_prefixed (interp : Interpreter) (ti : NDArray) :
    ∀ l ∈ (inferenceAttempt interp ti).out, PrefixedBy attemptLits l := by
  intro l hl
  unfold inferenceAttempt at hl
  rcases mem_bind_out hl with h | ⟨inp0, h⟩
  · simp [pyIndex_out] at h
  rcases mem_bind_out h with h | ⟨_, h⟩
  · simp [liftExc_out] at h
  rcases mem_bind_out h with h | ⟨_, h⟩
  · simp [liftExc_out] at h
  rcases mem_bind_out h with h | ⟨out0, h⟩
  · simp [pyIndex_out] at h
  rcases mem_bind_out h with h | ⟨output, h⟩
  · simp [liftExc_out] at h
  rcases mem_bind_out h with h | ⟨_, h⟩
  · simp only [pr, Step.out, List.mem_singleton] at h
    exact h ▸ prefixedBy_self (by decide)
  rcases mem_bind_out h with h | ⟨_, h⟩
  · simp only [pr, Step.out, List.mem_singleton] at h
    exact h ▸ prefixedBy_append (by decide) _
  rcases mem_bind_out h with h | ⟨mn, h⟩
  · simp [liftExc_out] at h
  rcases mem_bind_out h with h | ⟨mx, h⟩
  · simp [liftExc_out] at h
  rcases mem_bind_out h with h | ⟨_, h⟩
  · simp only [pr, Step.out, List.mem_singleton] at h
    exact h ▸ prefixedBy_append4 (by decide) _ _ _ _
  exact hintBlock_prefixed output.shape l h

theorem inferenceAttempt_ok (interp : Interpreter) (ti : NDArray) (inp0 out0 : TensorDetail)
    (irest orest : List TensorDetail) (o : NDArray) (x : Rat) (xs : List Rat)
    (h1 : interp.input_details = inp0 :: irest)
    (h2 : interp.output_details = out0 :: orest)
    (hset : interp.set_tensor inp0.index ti = Except.ok ())
    (hinv : interp.invoke = Except.ok ())
    (hget : interp.get_tensor out0.index = Except.ok o)
    (hdata : o.data = x :: xs) :
    inferenceAttempt interp ti =
      ⟨["✅ Inference successful!",
        "   Output shape: " ++ showTuple o.shape,
        "   Output range: [" ++ format4 (xs.foldl min x) ++ ", " ++
          format4 (xs.foldl max x) ++ "]"] ++ hintBlock o.shape, Except.ok ()⟩ := by
  simp [inferenceAttempt, h1, h2, hset, hinv, hget, hdata, liftExc, pyIndex, npMin, npMax,
    Step.bind, pr, prList, List.get?]

/- ### The tail of the report (lines 65–98) -/

/-- The fixed templates every line after the recipe section starts
with. -/
def tailLits : List String :=
  decompLits ++ ["\n" ++ sep, "TESTING INFERENCE:", sep] ++ attemptLits ++ [failMarker]

theorem inspectTail_prefixed (interp : Interpreter) (inp0 : TensorDetail) (rng : Nat → Rat) :
    ∀ l ∈ (inspectTail interp inp0 rng).out, PrefixedBy tailLits l := by
  intro l hl
  have hsub1 : ∀ p ∈ decompLits, p ∈ tailLits := by decide
  have hsub2 : ∀ p ∈ attemptLits, p ∈ tailLits := by decide
  unfold inspectTail at hl
  rcases mem_bind_out hl with h | ⟨_, h⟩
  · exact prefixedBy_mono (shapeDecomp_prefixed inp0.shape l h) hsub1
  rcases mem_bind_out h with h | ⟨_, h⟩
  · simp only [pr, Step.out, List.mem_singleton] at h
    exact h ▸ prefixedBy_self (by decide)
  rcases mem_bind_out h with h | ⟨_, h⟩
  · simp only [pr, Step.out, List.mem_singleton] at h
    exact h ▸ prefixedBy_self (by decide)
  rcases mem_bind_out h with h | ⟨_, h⟩
  · simp only [pr, Step.out, List.mem_singleton] at h
    exact h ▸ prefixedBy_self (by decide)
  rcases mem_bind_out h with h | ⟨_, h⟩
  · rcases mem_tryCatch_out h with h2 | ⟨e, h2⟩
    · exact prefixedBy_mono (inferenceAttempt_prefixed interp (makeTestInput inp0.shape rng) l h2) hsub2
    · simp only [failHandler, pr, Step.out, List.mem_singleton] at h2
      exact h2 ▸ prefixedBy_append (by decide) _
  simp only [pr, Step.out, List.mem_singleton] at h
  exact h ▸ prefixedBy_self (by decide)

theorem inspectTail_run (interp : Interpreter) (inp0 : TensorDetail) (rng : Nat → Rat)
    (a b c d : Nat) (t : List Nat) (hs : inp0.shape = a :: b :: c :: d :: t) :
    inspectTail interp inp0 rng =
      ⟨(shapeDecomp inp0.shape).out ++ ["\n" ++ sep, "TESTING INFERENCE:", sep] ++
        (Step.tryCatch (inferenceAttempt interp (makeTestInput inp0.shape rng)) failHandler).out ++
        ["\n" ++ sep], Except.ok ()⟩ := by
  have hres : (Step.tryCatch (inferenceAttempt interp (makeTestInput inp0.shape rng))
      failHandler).res = Except.ok () :=
    tryCatch_res_ok (fun e => rfl)
  rcases htc : Step.tryCatch (inferenceAttempt interp (makeTestInput inp0.shape rng)) failHandler
    with ⟨tco, tcr⟩
  rw [htc] at hres
  simp only [Step.res] at hres
  subst hres
  unfold inspectTail
  rw [hs, shapeDecomp_cons, bind_mk_ok]
  rw [hs] at htc
  rw [htc]
  simp [Step.bind, pr, shapeDecomp_cons, Step.out, Step.res]

/- ### The whole report -/

theorem inspect_run (interp : Interpreter) (rng : Nat → Rat) (inp0 : TensorDetail)
    (irest : List TensorDetail) (inL outL : List String)
    (h1 : interp.input_details = inp0 :: irest)
    (hin : inputLoop 0 (inp0 :: irest) = ⟨inL, Except.ok ()⟩)
    (hout : outputLoop 0 interp.output_details = ⟨outL, Except.ok ()⟩) :
    inspect_tflite_model interp rng =
      ⟨[sep, "MODEL INSPECTION REPORT", sep, "\n📥 INPUT TENSOR:"] ++ inL ++
        ["\n📤 OUTPUT TENSOR:"] ++ outL ++
        ["\n" ++ sep, "EXPECTED INPUT FORMAT:", sep] ++ recipeLines inp0.dtype ++
        (inspectTail interp inp0 rng).out,
       (inspectTail interp inp0 rng).res⟩ := by
  unfold inspect_tflite_model
  rw [h1, hin, hout]
  simp [Step.bind, pr, prList, pyIndex, List.get?, Step.out, Step.res]

/- ### Small helpers for the claim theorems -/

theorem tryCatch_error {α : Type} {a : Step α} {e : PyError} (h : a.res = Except.error e)
    (hnd : PyError → Step α) : Step.tryCatch a hnd = ⟨a.out ++ (hnd e).out, (hnd e).res⟩ := by
  cases a with
  | mk o r =>
    cases r with
    | ok w => simp [Step.res] at h
    | error e2 => simp only [Step.res] at h; cases h; rfl

theorem ne_of_append_target {p x t : String} (h : p.data.isPrefixOf t.data = false) :
    p ++ x ≠ t := by
  intro he
  have h2 := isPrefixOf_of_prefix (he ▸ data_prefix_left p x)
  rw [h] at h2
  exact Bool.false_ne_true h2

theorem getLast?_append_right {α : Type} {l₂ : List α} (l₁ : List α) {s : α}
    (h : l₂.getLast? = some s) : (l₁ ++ l₂).getLast? = some s := by
  have hne : l₂ ≠ [] := by
    intro he
    rw [he] at h
    simp at h
  rw [List.getLast?_append_of_ne_nil l₁ hne, h]

theorem startsFail_failLine (msg : String) :
    startsFail ("❌ Inference failed: " ++ msg) = true :=
  isPrefixOf_of_prefix (data_prefix_left "❌ Inference failed: " msg)

theorem format_mem_hintBlock (s : List Nat) :
    "\n   Format: YOLOv5/v8 detection output" ∈ hintBlock s ↔
      s.length = 3 ∧ s.getD 2 0 = 85 := by
  unfold hintBlock
  by_cases hc : s.length = 3 ∧ s.getD 2 0 = 85
  · rw [if_pos hc]
    exact iff_of_true (List.mem_cons_self _ _) hc
  · rw [if_neg hc]
    exact iff_of_false (List.not_mem_nil _) hc

/-- Membership in the whole report reduces to membership in the recipe
section, for any target line that is not a header and does not start with
any input-listing or post-recipe template. -/
theorem mem_inspect_out_iff (interp : Interpreter) (rng : Nat → Rat) (inp0 : TensorDetail)
    (irest : List TensorDetail) (inL outL : List String) (t : String)
    (h1 : interp.input_details = inp0 :: irest)
    (hin : inputLoop 0 (inp0 :: irest) = ⟨inL, Except.ok ()⟩)
    (hout : outputLoop 0 interp.output_details = ⟨outL, Except.ok ()⟩)
    (hhdr : t ∉ ([sep, "MODEL INSPECTION REPORT", "\n📥 INPUT TENSOR:", "\n📤 OUTPUT TENSOR:",
      "\n" ++ sep, "EXPECTED INPUT FORMAT:"] : List String))
    (hinp : ∀ p ∈ inputLits, p.data.isPrefixOf t.data = false)
    (htail : ∀ p ∈ tailLits, p.data.isPrefixOf t.data = false) :
    t ∈ (inspect_tflite_model interp rng).out ↔ t ∈ recipeLines inp0.dtype := by
  have hInL : t ∉ inL := by
    refine not_mem_of_prefixedBy ?_ hinp
    intro l hl
    exact inputLoop_prefixed 0 (inp0 :: irest) l (by rw [hin]; exact hl)
  have hallOut : ∀ l ∈ outL, PrefixedBy outLits l := by
    intro l hl
    exact outputLoop_prefixed 0 interp.output_details l (by rw [hout]; exact hl)
  have hOutL : t ∉ outL := by
    refine not_mem_of_prefixedBy hallOut ?_
    intro p hp
    have hsub : ∀ q ∈ outLits, q ∈ inputLits := by decide
    exact hinp p (hsub p hp)
  have hTail : t ∉ (inspectTail interp inp0 rng).out :=
    not_mem_of_prefixedBy (inspectTail_prefixed interp inp0 rng) htail
  simp only [List.mem_cons, List.not_mem_nil, or_false, not_or] at hhdr
  obtain ⟨e1, e2, e3, e4, e5, e6⟩ := hhdr
  rw [inspect_run interp rng inp0 irest inL outL h1 hin hout]
  simp [List.mem_append, List.mem_cons, e1, e2, e3, e4, e5, e6, hInL, hOutL, hTail]

/- ### Concrete instances used by witnesses and counterexamples -/

/-- A fixed random source for concrete runs. -/
def rng0 : Nat → Rat := fun _ => 1 / 2

/-- A float32 image-input tensor descriptor. -/
def dF : TensorDetail :=
  { name := "serving_default_input:0", shape := [1, 224, 224, 3], dtype := DType.float32,
    quantization := some "(0.0, 0)", quantization_parameters := some ⟨"[]", "[]"⟩, index := 0 }

/-- A quantized uint8 image-input tensor descriptor with quantization
parameters present. -/
def dU8 : TensorDetail :=
  { name := "serving_default_input:0", shape := [1, 224, 224, 3], dtype := DType.uint8,
    quantization := some "(0.00390625, 0)",
    quantization_parameters := some ⟨"[0.00390625]", "[0]"⟩, index := 0 }

/-- A quantized uint8 input descriptor whose `quantization_parameters`
key is absent. -/
def qd0 : TensorDetail :=
  { name := "serving_default_input:0", shape := [1, 224, 224, 3], dtype := DType.uint8,
    quantization := some "(0.00390625, 0)", quantization_parameters := none, index := 0 }

/-- An output tensor descriptor of a detection head. -/
def outD : TensorDetail :=
  { name := "StatefulPartitionedCall:0", shape := [1, 2, 85], dtype := DType.float32,
    quantization := none, quantization_parameters := none, index := 177 }

/-- A detection-head output array: rank 3, last dimension 85. -/
def oArr : NDArray := ⟨[1, 2, 85], DType.float32, List.replicate 170 (1 / 2)⟩

/-- An interpreter whose runtime calls all succeed. -/
def interpOk : Interpreter :=
  { input_details := [dF], output_details := [outD],
    set_tensor := fun _ _ => Except.ok (), invoke := Except.ok (),
    get_tensor := fun _ => Except.ok oArr }

/-- An interpreter that rejects the bound tensor (the latent
float32-into-uint8 mismatch). -/
def interpFail : Interpreter :=
  { input_details := [dU8], output_details := [outD],
    set_tensor := fun _ _ =>
      Except.error "Cannot set tensor: Got value of type FLOAT32 but expected type UINT8 for input 0",
    invoke := Except.ok (), get_tensor := fun _ => Except.error "no output" }

/-- An interpreter reporting no input tensor descriptors. -/
def interp0 : Interpreter :=
  { input_details := [], output_details := [outD],
    set_tensor := fun _ _ => Except.ok (), invoke := Except.ok (),
    get_tensor := fun _ => Except.ok oArr }

/-- The loader used in concrete `main_entry` runs. -/
def load0 : String → Interpreter := fun _ => interpOk

/- ### C7 -/

/-- C7: given a first input tensor shape of [1, 224, 224, 3], the shape
decomposition (lines 65–69) prints Batch=1, Height=224, Width=224,
Channels=3, labelling the four dimensions in batch/height/width/channels
order. -/
theorem c7_shape_decomposition :
    shapeDecomp [1, 224, 224, 3] =
      ⟨["\n   Expected input shape: [1 224 224 3]",
        "   Batch: 1", "   Height: 224", "   Width: 224", "   Channels: 3"],
       Except.ok ()⟩ := rfl

/- ### C10 -/

/-- C10: for every first-input shape with four or more dimensions the
decomposition succeeds, printing the first four dimensions as Batch,
Height, Width and Channels and ignoring all further dimensions. -/
theorem c10_rank_ge_four_decomposes (s : List Nat) (h : 4 ≤ s.length) :
    (shapeDecomp s).res = Except.ok () ∧
    (shapeDecomp s).out =
      ["\n   Expected input shape: " ++ showShape s,
       "   Batch: " ++ toString (s.getD 0 0),
       "   Height: " ++ toString (s.getD 1 0),
       "   Width: " ++ toString (s.getD 2 0),
       "   Channels: " ++ toString (s.getD 3 0)] := by
  match s, h with
  | a :: b :: c :: d :: t, _ =>
    rw [shapeDecomp_cons]
    exact ⟨rfl, rfl⟩

/-- C10 witness: a rank-5 shape decomposes, using only the first four
dimensions. -/
theorem c10_witness :
    (shapeDecomp [1, 224, 224, 3, 7]).res = Except.ok () ∧
    (shapeDecomp [1, 224, 224, 3, 7]).out =
      ["\n   Expected input shape: " ++ showShape [1, 224, 224, 3, 7],
       "   Batch: " ++ toString ([1, 224, 224, 3, 7].getD 0 0),
       "   Height: " ++ toString ([1, 224, 224, 3, 7].getD 1 0),
       "   Width: " ++ toString ([1, 224, 224, 3, 7].getD 2 0),
       "   Channels: " ++ toString ([1, 224, 224, 3, 7].getD 3 0)] :=
  c10_rank_ge_four_decomposes [1, 224, 224, 3, 7] (by decide)

/- ### C9 -/

/-- C9: every input tensor's listing, regardless of dtype, contains a
Quantization line showing the tensor's `quantization` field, with the
string None as the fallback when that field is absent. -/
theorem c9_quantization_line_always (i : Nat) (inp : TensorDetail) :
    ("      Quantization: " ++ showQuantField inp.quantization) ∈ (inputTensorBlock i inp).out ∧
    (inp.quantization = none → "      Quantization: None" ∈ (inputTensorBlock i inp).out) := by
  have hmem : ("      Quantization: " ++ showQuantField inp.quantization) ∈
      (inputTensorBlock i inp).out := by
    by_cases hd : inp.dtype = DType.uint8
    · cases hq : inp.quantization_parameters with
      | some qp => rw [inputTensorBlock_uint8_some i inp qp hd hq]; simp
      | none => rw [inputTensorBlock_uint8_none i inp hd hq]; simp
    · rw [inputTensorBlock_other i inp hd]; simp
  refine ⟨hmem, fun hq => ?_⟩
  have : showQuantField inp.quantization = "None" := by rw [hq]; rfl
  rw [this] at hmem
  exact hmem

/-- C9 witness: the Quantization line of a concrete float32 tensor with
an absent quantization field shows the None placeholder. -/
theorem c9_witness :
    "      Quantization: None" ∈ (inputTensorBlock 0
      { name := "input", shape := [1, 4], dtype := DType.float32,
        quantization := none, quantization_parameters := none, index := 0 }).out :=
  (c9_quantization_line_always 0
    { name := "input", shape := [1, 4], dtype := DType.float32,
      quantization := none, quantization_parameters := none, index := 0 }).2 rfl

/- ### C6 (corrected) -/

/-- C6 counterexample: for a uint8 input tensor whose
`quantization_parameters` entry is absent, the listing does not print any
no-normalization-metadata placeholder — it prints the first five lines
and then aborts with an uncaught KeyError (the string None appears
nowhere in the printed lines). -/
theorem c6_counterexample :
    (inputTensorBlock 0 qd0).res = Except.error (PyError.keyError "quantization_parameters") ∧
    (inputTensorBlock 0 qd0).out =
      ["  [0] Name: serving_default_input:0",
       "      Shape: [1 224 224 3]",
       "      Type: numpy.uint8",
       "      Quantization: (0.00390625, 0)",
       "      ⚠️  QUANTIZED MODEL - Use scale/zero_point"] ∧
    (∀ l ∈ (inputTensorBlock 0 qd0).out, ¬ ("None".data <:+: l.data)) := by
  refine ⟨rfl, rfl, ?_⟩
  decide

/-- C6 amended: for every uint8 input tensor, when `quantization_parameters`
is present its scale and zero-point are printed; when it is absent the
block raises an uncaught KeyError after the warning line instead of
printing a placeholder (the None placeholder belongs to the per-tensor
Quantization line, which every tensor gets regardless of dtype). -/
theorem c6_amended_scale_zero_point (i : Nat) (inp : TensorDetail)
    (hd : inp.dtype = DType.uint8) :
    (∀ qp, inp.quantization_parameters = some qp →
      ("      Scale: " ++ qp.scales) ∈ (inputTensorBlock i inp).out ∧
      ("      Zero Point: " ++ qp.zero_points) ∈ (inputTensorBlock i inp).out ∧
      (inputTensorBlock i inp).res = Except.ok ()) ∧
    (inp.quantization_parameters = none →
      (inputTensorBlock i inp).res = Except.error (PyError.keyError "quantization_parameters") ∧
      (inputTensorBlock i inp).out =
        ["  [" ++ toString i ++ "] Name: " ++ inp.name,
         "      Shape: " ++ showShape inp.shape,
         "      Type: " ++ showDType inp.dtype,
         "      Quantization: " ++ showQuantField inp.quantization,
         "      ⚠️  QUANTIZED MODEL - Use scale/zero_point"]) := by
  constructor
  · intro qp hq
    rw [inputTensorBlock_uint8_some i inp qp hd hq]
    refine ⟨by simp, by simp, rfl⟩
  · intro hq
    rw [inputTensorBlock_uint8_none i inp hd hq]
    exact ⟨rfl, rfl⟩

/-- C6 amended witness: for the concrete uint8 descriptor with parameters
present, the scale line is printed. -/
theorem c6_amended_witness :
    ("      Scale: " ++ "[0.00390625]") ∈ (inputTensorBlock 0 dU8).out :=
  ((c6_amended_scale_zero_point 0 dU8 rfl).1 ⟨"[0.00390625]", "[0]"⟩ rfl).1

/- ### C5 -/

/-- C5: the synthesized dummy input has exactly the first input tensor's
declared shape, carries dtype float32 (by construction `makeTestInput`
takes only the shape, never the declared dtype, so this holds regardless
of the model's input representation, including uint8 models), and its
elements all lie in [0, 1) whenever the random source does. -/
theorem c5_dummy_input (input_shape : List Nat) (rng : Nat → Rat)
    (hr : ∀ n, 0 ≤ rng n ∧ rng n < 1) :
    (makeTestInput input_shape rng).shape = input_shape ∧
    (makeTestInput input_shape rng).dtype = DType.float32 ∧
    ∀ x ∈ (makeTestInput input_shape rng).data, 0 ≤ x ∧ x < 1 := by
  refine ⟨rfl, rfl, ?_⟩
  intro x hx
  simp only [makeTestInput, np_random_rand, NDArray.astype, List.mem_map] at hx
  obtain ⟨n, _, rfl⟩ := hx
  exact hr n

/-- C5 witness: a concrete shape and random source. -/
theorem c5_witness :
    (makeTestInput [1, 224, 224, 3] rng0).shape = [1, 224, 224, 3] ∧
    (makeTestInput [1, 224, 224, 3] rng0).dtype = DType.float32 ∧
    ∀ x ∈ (makeTestInput [1, 224, 224, 3] rng0).data, 0 ≤ x ∧ x < 1 :=
  c5_dummy_input [1, 224, 224, 3] rng0 (fun n => by constructor <;> norm_num [rng0])

/- ### C3 (corrected) -/

/-- C3 counterexample: with zero positional arguments the usage/example
message spans four text lines (three print calls, one of which begins
with a blank line), not two. -/
theorem c3_counterexample :
    printedLineCount (main_entry ["model_inspector.py"] load0 rng0).out = 4 ∧
    printedLineCount (main_entry ["model_inspector.py"] load0 rng0).out ≠ 2 := by
  decide

/-- C3 amended: when invoked with zero positional arguments the program
prints the four-line usage/example message (three print statements), exits
with status 1, raises nothing, and never calls the inspect function. -/
theorem c3_usage_exit (argv : List String) (load : String → Interpreter) (rng : Nat → Rat)
    (h : argv.length < 2) :
    main_entry argv load rng =
      { out := usageLines, exit_code := some 1, fatal := none, inspect_called := false } ∧
    printedLineCount usageLines = 4 := by
  refine ⟨?_, by decide⟩
  unfold main_entry
  rw [if_pos h]

/-- C3 witness: the concrete zero-argument invocation. -/
theorem c3_witness :
    main_entry ["model_inspector.py"] load0 rng0 =
      { out := usageLines, exit_code := some 1, fatal := none, inspect_called := false } ∧
    printedLineCount usageLines = 4 :=
  c3_usage_exit ["model_inspector.py"] load0 rng0 (by decide)

/- ### C8 -/

/-- C8: with zero input tensor descriptors the report prints the empty
input listing and the full output listing, then aborts with an uncaught
IndexError at the recipe-selection access `input_details[0]`, before the
TESTING INFERENCE section (and hence before any dummy input or inference)
is reached. -/
theorem c8_empty_inputs_fatal (interp : Interpreter) (rng : Nat → Rat)
    (h : interp.input_details = []) :
    (inspect_tflite_model interp rng).res = Except.error PyError.indexError ∧
    (inspect_tflite_model interp rng).out =
      [sep, "MODEL INSPECTION REPORT", sep, "\n📥 INPUT TENSOR:", "\n📤 OUTPUT TENSOR:"] ++
        (outputLoop 0 interp.output_details).out ++
        ["\n" ++ sep, "EXPECTED INPUT FORMAT:", sep] ∧
    "TESTING INFERENCE:" ∉ (inspect_tflite_model interp rng).out ∧
    "✅ Inference successful!" ∉ (inspect_tflite_model interp rng).out := by
  obtain ⟨outL, hout⟩ := outputLoop_ok 0 interp.output_details
  have hrun : inspect_tflite_model interp rng =
      ⟨[sep, "MODEL INSPECTION REPORT", sep, "\n📥 INPUT TENSOR:", "\n📤 OUTPUT TENSOR:"] ++
        outL ++ ["\n" ++ sep, "EXPECTED INPUT FORMAT:", sep],
       Except.error PyError.indexError⟩ := by
    unfold inspect_tflite_model
    rw [h, hout]
    simp [Step.bind, pr, prList, pyIndex, inputLoop, tensorLoop, List.get?, Step.out, Step.res]
  have houtmem : ∀ t : String, (∀ p ∈ outLits, p.data.isPrefixOf t.data = false) → t ∉ outL := by
    intro t ht
    refine not_mem_of_prefixedBy ?_ ht
    intro l hl
    exact outputLoop_prefixed 0 interp.output_details l (by rw [hout]; exact hl)
  have h5 : "TESTING INFERENCE:" ∉ outL := houtmem _ (by decide)
  have h6 : "✅ Inference successful!" ∉ outL := houtmem _ (by decide)
  rw [hrun, hout]
  refine ⟨rfl, rfl, ?_, ?_⟩ <;>
    simp [List.mem_append, List.mem_cons, h5, h6, sep]

/-- C8 witness: the concrete zero-input interpreter aborts with an
IndexError. -/
theorem c8_witness :
    (inspect_tflite_model interp0 rng0).res = Except.error PyError.indexError :=
  (c8_empty_inputs_fatal interp0 rng0 rfl).1

/- ### C1 -/

/-- C1: the normalization-recipe section is selected solely by the dtype
of the first input tensor: float32 prints both the divide-by-255 recipe
and the fixed mean/std recipe (R 123.675/58.395, G 116.28/57.12,
B 103.53/57.375) and not the raw-pixels text; uint8 prints the raw-pixels
text and neither float recipe; any other dtype prints none of them. -/
theorem c1_recipe_selection (interp : Interpreter) (rng : Nat → Rat) (inp0 : TensorDetail)
    (irest : List TensorDetail)
    (h1 : interp.input_details = inp0 :: irest)
    (h2 : ∀ dt ∈ interp.input_details, dt.dtype = DType.uint8 →
      dt.quantization_parameters ≠ none) :
    (inp0.dtype = DType.float32 →
      "   normalized = pixel_value / 255.0" ∈ (inspect_tflite_model interp rng).out ∧
      "   R = (pixel - 123.675) / 58.395" ∈ (inspect_tflite_model interp rng).out ∧
      "   G = (pixel - 116.28) / 57.12" ∈ (inspect_tflite_model interp rng).out ∧
      "   B = (pixel - 103.53) / 57.375" ∈ (inspect_tflite_model interp rng).out ∧
      "   Use pixels directly (0-255)" ∉ (inspect_tflite_model interp rng).out) ∧
    (inp0.dtype = DType.uint8 →
      "   Use pixels directly (0-255)" ∈ (inspect_tflite_model interp rng).out ∧
      "   normalized = pixel_value / 255.0" ∉ (inspect_tflite_model interp rng).out ∧
      "   R = (pixel - 123.675) / 58.395" ∉ (inspect_tflite_model interp rng).out ∧
      "   G = (pixel - 116.28) / 57.12" ∉ (inspect_tflite_model interp rng).out ∧
      "   B = (pixel - 103.53) / 57.375" ∉ (inspect_tflite_model interp rng).out) ∧
    (inp0.dtype ≠ DType.float32 → inp0.dtype ≠ DType.uint8 →
      "   normalized = pixel_value / 255.0" ∉ (inspect_tflite_model interp rng).out ∧
      "   R = (pixel - 123.675) / 58.395" ∉ (inspect_tflite_model interp rng).out ∧
      "   G = (pixel - 116.28) / 57.12" ∉ (inspect_tflite_model interp rng).out ∧
      "   B = (pixel - 103.53) / 57.375" ∉ (inspect_tflite_model interp rng).out ∧
      "   Use pixels directly (0-255)" ∉ (inspect_tflite_model interp rng).out) := by
  obtain ⟨inL, hin⟩ := inputLoop_ok 0 (inp0 :: irest) (by rw [← h1]; exact h2)
  obtain ⟨outL, hout⟩ := outputLoop_ok 0 interp.output_details
  have key : ∀ t : String,
      t ∉ ([sep, "MODEL INSPECTION REPORT", "\n📥 INPUT TENSOR:", "\n📤 OUTPUT TENSOR:",
        "\n" ++ sep, "EXPECTED INPUT FORMAT:"] : List String) →
      (∀ p ∈ inputLits, p.data.isPrefixOf t.data = false) →
      (∀ p ∈ tailLits, p.data.isPrefixOf t.data = false) →
      (t ∈ (inspect_tflite_model interp rng).out ↔ t ∈ recipeLines inp0.dtype) :=
    fun t ha hb hc => mem_inspect_out_iff interp rng inp0 irest inL outL t h1 hin hout ha hb hc
  have hN := key "   normalized = pixel_value / 255.0" (by decide) (by decide) (by decide)
  have hR := key "   R = (pixel - 123.675) / 58.395" (by decide) (by decide) (by decide)
  have hG := key "   G = (pixel - 116.28) / 57.12" (by decide) (by decide) (by decide)
  have hB := key "   B = (pixel - 103.53) / 57.375" (by decide) (by decide) (by decide)
  have hU := key "   Use pixels directly (0-255)" (by decide) (by decide) (by decide)
  refine ⟨?_, ?_, ?_⟩
  · intro hd
    rw [hN, hR, hG, hB, hU, hd]
    refine ⟨by decide, by decide, by decide, by decide, by decide⟩
  · intro hd
    rw [hN, hR, hG, hB, hU, hd]
    refine ⟨by decide, by decide, by decide, by decide, by decide⟩
  · intro hd1 hd2
    have hr : recipeLines inp0.dtype = [] := by
      unfold recipeLines
      rw [if_neg hd1, if_neg hd2]
    rw [hN, hR, hG, hB, hU, hr]
    refine ⟨by decide, by decide, by decide, by decide, by decide⟩

/-- C1 witness: a concrete float32 model prints the divide-by-255 recipe
and not the raw-pixels text. -/
theorem c1_witness :
    "   normalized = pixel_value / 255.0" ∈ (inspect_tflite_model interpOk rng0).out ∧
    "   Use pixels directly (0-255)" ∉ (inspect_tflite_model interpOk rng0).out := by
  have h := (c1_recipe_selection interpOk rng0 dF [] rfl (by decide)).1 rfl
  exact ⟨h.1, h.2.2.2.2⟩

/- ### C2 -/

theorem ne_of_prefix_target {p l t : String} (hp : p.data <+: l.data)
    (h : p.data.isPrefixOf t.data = false) : l ≠ t := by
  intro he
  have h2 := isPrefixOf_of_prefix (he ▸ hp)
  rw [h] at h2
  exact Bool.false_ne_true h2

/-- C2: every error raised inside the try block — tensor binding,
invocation, or output reading — is caught at the single handler: the run
finishes normally (no uncaught exception, and at main level neither an
exit call nor a fatal error), exactly one failure line is printed, it
carries the caught error's description, and the final separator is still
the last line printed. -/
theorem c2_error_recovery (interp : Interpreter) (rng : Nat → Rat) (inp0 : TensorDetail)
    (irest : List TensorDetail) (a b c d : Nat) (t : List Nat) (e : PyError)
    (h1 : interp.input_details = inp0 :: irest)
    (h2 : ∀ dt ∈ interp.input_details, dt.dtype = DType.uint8 →
      dt.quantization_parameters ≠ none)
    (hs : inp0.shape = a :: b :: c :: d :: t)
    (hfail : (inferenceAttempt interp (makeTestInput inp0.shape rng)).res = Except.error e) :
    (inspect_tflite_model interp rng).res = Except.ok () ∧
    ("❌ Inference failed: " ++ pyErrMsg e) ∈ (inspect_tflite_model interp rng).out ∧
    (inspect_tflite_model interp rng).out.countP startsFail = 1 ∧
    (inspect_tflite_model interp rng).out.getLast? = some ("\n" ++ sep) ∧
    (main_entry ["model_inspector.py", "model.tflite"] (fun _ => interp) rng).exit_code = none ∧
    (main_entry ["model_inspector.py", "model.tflite"] (fun _ => interp) rng).fatal = none := by
  obtain ⟨inL, hin⟩ := inputLoop_ok 0 (inp0 :: irest) (by rw [← h1]; exact h2)
  obtain ⟨outL, hout⟩ := outputLoop_ok 0 interp.output_details
  have htc := tryCatch_error hfail failHandler
  have htail := inspectTail_run interp inp0 rng a b c d t hs
  rw [htc] at htail
  simp only [failHandler, pr, Step.out, Step.res] at htail
  have hrun := inspect_run interp rng inp0 irest inL outL h1 hin hout
  rw [htail] at hrun
  simp only [Step.out, Step.res] at hrun
  have hallIn : ∀ l ∈ inL, PrefixedBy inputLits l := by
    intro l hl
    exact inputLoop_prefixed 0 (inp0 :: irest) l (by rw [hin]; exact hl)
  have hallOut : ∀ l ∈ outL, PrefixedBy outLits l := by
    intro l hl
    exact outputLoop_prefixed 0 interp.output_details l (by rw [hout]; exact hl)
  have hcIn : inL.countP startsFail = 0 := countP_startsFail_zero hallIn (by decide)
  have hcOut : outL.countP startsFail = 0 := countP_startsFail_zero hallOut (by decide)
  have hcRec : (recipeLines inp0.dtype).countP startsFail = 0 := by
    cases inp0.dtype <;> decide
  have hcDec : (shapeDecomp inp0.shape).out.countP startsFail = 0 :=
    countP_startsFail_zero (shapeDecomp_prefixed inp0.shape) (by decide)
  have hcAtt : (inferenceAttempt interp (makeTestInput inp0.shape rng)).out.countP
      startsFail = 0 :=
    countP_startsFail_zero (inferenceAttempt_prefixed interp (makeTestInput inp0.shape rng))
      (by decide)
  have hmain : main_entry ["model_inspector.py", "model.tflite"] (fun _ => interp) rng =
      { out := (inspect_tflite_model interp rng).out, exit_code := none,
        fatal := resErr (inspect_tflite_model interp rng).res, inspect_called := true } := by
    unfold main_entry
    rw [if_neg (by decide)]
  refine ⟨?_, ?_, ?_, ?_, ?_, ?_⟩
  · rw [hrun]
  · rw [hrun]
    simp [List.mem_append, List.mem_cons]
  · have k1 : List.countP startsFail
        [sep, "MODEL INSPECTION REPORT", sep, "\n📥 INPUT TENSOR:"] = 0 := by decide
    have k2 : List.countP startsFail ["\n📤 OUTPUT TENSOR:"] = 0 := by decide
    have k3 : List.countP startsFail ["\n" ++ sep, "EXPECTED INPUT FORMAT:", sep] = 0 := by
      decide
    have k4 : List.countP startsFail ["\n" ++ sep, "TESTING INFERENCE:", sep] = 0 := by decide
    have k5 : List.countP startsFail ["❌ Inference failed: " ++ pyErrMsg e] = 1 := by
      simp [List.countP_cons, startsFail_failLine]
    have k6 : List.countP startsFail ["\n" ++ sep] = 0 := by decide
    rw [hrun]
    simp only [Step.out, List.countP_append, hcIn, hcOut, hcRec, hcDec, hcAtt, k1, k2, k3, k4,
      k5, k6]
  · rw [hrun]
    exact getLast?_append_right _ (getLast?_append_right _ rfl)
  · rw [hmain]
  · rw [hmain]
    simp only [resErr, hrun]

/-- C2 witness: the latent float32-into-uint8 binding failure is caught,
reported once, and the report still ends normally. -/
theorem c2_witness :
    (inspect_tflite_model interpFail rng0).res = Except.ok () ∧
    ("❌ Inference failed: " ++ pyErrMsg (PyError.runtimeError
      "Cannot set tensor: Got value of type FLOAT32 but expected type UINT8 for input 0")) ∈
      (inspect_tflite_model interpFail rng0).out := by
  have h := c2_error_recovery interpFail rng0 dU8 [] 1 224 224 3 []
    (PyError.runtimeError
      "Cannot set tensor: Got value of type FLOAT32 but expected type UINT8 for input 0")
    rfl (by decide) rfl rfl
  exact ⟨h.1, h.2.1⟩

/- ### C4 -/

/-- C4: the detection-layout hint is printed iff the inference output
array has rank exactly 3 and last dimension 85; when printed it echoes
Detections equal to the output's second dimension and Values-per-detection
equal to its third (85); in particular a rank-2 output such as (1, 1000)
never produces it. -/
theorem c4_detection_hint (interp : Interpreter) (rng : Nat → Rat) (inp0 out0 : TensorDetail)
    (irest orest : List TensorDetail) (a b c d : Nat) (t : List Nat) (o : NDArray)
    (x : Rat) (xs : List Rat)
    (h1 : interp.input_details = inp0 :: irest)
    (h2 : ∀ dt ∈ interp.input_details, dt.dtype = DType.uint8 →
      dt.quantization_parameters ≠ none)
    (hs : inp0.shape = a :: b :: c :: d :: t)
    (h3 : interp.output_details = out0 :: orest)
    (hset : interp.set_tensor inp0.index (makeTestInput inp0.shape rng) = Except.ok ())
    (hinv : interp.invoke = Except.ok ())
    (hget : interp.get_tensor out0.index = Except.ok o)
    (hdata : o.data = x :: xs) :
    ("\n   Format: YOLOv5/v8 detection output" ∈ (inspect_tflite_model interp rng).out ↔
      o.shape.length = 3 ∧ o.shape.getD 2 0 = 85) ∧
    (o.shape.length = 3 ∧ o.shape.getD 2 0 = 85 →
      ("   Detections: " ++ toString (o.shape.getD 1 0)) ∈ (inspect_tflite_model interp rng).out ∧
      ("   Values per detection: " ++ toString (o.shape.getD 2 0)) ∈
        (inspect_tflite_model interp rng).out) := by
  obtain ⟨inL, hin⟩ := inputLoop_ok 0 (inp0 :: irest) (by rw [← h1]; exact h2)
  obtain ⟨outL, hout⟩ := outputLoop_ok 0 interp.output_details
  have hatt := inferenceAttempt_ok interp (makeTestInput inp0.shape rng) inp0 out0 irest orest
    o x xs h1 h3 hset hinv hget hdata
  have htail := inspectTail_run interp inp0 rng a b c d t hs
  rw [hatt, tryCatch_mk_ok] at htail
  have hrun := inspect_run interp rng inp0 irest inL outL h1 hin hout
  rw [htail] at hrun
  simp only [Step.out, Step.res] at hrun
  have hInL : ∀ tg : String, (∀ p ∈ inputLits, p.data.isPrefixOf tg.data = false) → tg ∉ inL := by
    intro tg htg
    refine not_mem_of_prefixedBy ?_ htg
    intro l hl
    exact inputLoop_prefixed 0 (inp0 :: irest) l (by rw [hin]; exact hl)
  have hOutL : ∀ tg : String, (∀ p ∈ outLits, p.data.isPrefixOf tg.data = false) → tg ∉ outL := by
    intro tg htg
    refine not_mem_of_prefixedBy ?_ htg
    intro l hl
    exact outputLoop_prefixed 0 interp.output_details l (by rw [hout]; exact hl)
  constructor
  · have e1 : "\n   Format: YOLOv5/v8 detection output" ∉ inL := hInL _ (by decide)
    have e2 : "\n   Format: YOLOv5/v8 detection output" ∉ outL := hOutL _ (by decide)
    have e3 : "\n   Format: YOLOv5/v8 detection output" ∉ recipeLines inp0.dtype := by
      cases inp0.dtype <;> decide
    have e4 : "\n   Format: YOLOv5/v8 detection output" ∉ (shapeDecomp inp0.shape).out :=
      not_mem_of_prefixedBy (shapeDecomp_prefixed inp0.shape) (by decide)
    have e5 : ("\n   Format: YOLOv5/v8 detection output" : String) ≠
        "   Output shape: " ++ showTuple o.shape :=
      Ne.symm (ne_of_prefix_target (data_prefix_left _ _) (by decide))
    have e6 : ("\n   Format: YOLOv5/v8 detection output" : String) ≠
        "   Output range: [" ++ format4 (List.foldl min x xs) ++ ", " ++
          format4 (List.foldl max x xs) ++ "]" :=
      Ne.symm (ne_of_prefix_target
        (data_prefix_extend (data_prefix_extend (data_prefix_extend
          (data_prefix_left "   Output range: [" _) _) _) _) (by decide))
    have e7 := format_mem_hintBlock o.shape
    rw [hrun]
    simp only [Step.out, List.mem_append, List.mem_cons, List.not_mem_nil, or_false, e1, e2,
      e3, e4, e7]
    simp [e5, e6, sep, List.mem_cons]
  · intro hc
    have hhint : hintBlock o.shape =
        ["\n   Format: YOLOv5/v8 detection output",
         "   Detections: " ++ toString (o.shape.getD 1 0),
         "   Values per detection: " ++ toString (o.shape.getD 2 0),
         "   Layout: [x, y, w, h, objectness, class0, class1, ..., class79]"] := by
      unfold hintBlock
      rw [if_pos hc]
    rw [hrun]
    constructor <;> simp [hhint, List.mem_append, List.mem_cons]

/-- C4 witness: a concrete run with output shape (1, 2, 85) prints the
hint with the echoed dimensions. -/
theorem c4_witness :
    "\n   Format: YOLOv5/v8 detection output" ∈ (inspect_tflite_model interpOk rng0).out ∧
    ("   Detections: " ++ toString (oArr.shape.getD 1 0)) ∈
      (inspect_tflite_model interpOk rng0).out := by
  have h := c4_detection_hint interpOk rng0 dF outD [] [] 1 224 224 3 [] oArr (1 / 2)
    (List.replicate 169 (1 / 2)) rfl (by decide) rfl rfl rfl rfl rfl rfl
  exact ⟨h.1.mpr (by decide), (h.2 (by decide)).1⟩

end ModelInspector
